import Mathlib

/-!
# Status reconciliation of the OpenTelemetryCollector resource

A shallow embedding of `HandleReconcileStatus`
(`internal/status/collector/handle.go`) together with the properties of its
control flow: which collaborators are called, in which order, with which
arguments, which audit events are recorded and which error is returned.

Go objects are modelled by value.  A Go callee that mutates the object behind a
pointer (`Client.Patch`, `UpdateCollectorStatus`, `Status().Patch`) is modelled
as a function that returns the object as it stands after the call.  The
collaborators are arbitrary functions of an abstract world state `σ` (the
cluster), so every theorem holds for all behaviours they may have.
-/

namespace Collector

/-! ## Constants (handle.go, lines 21-28) -/

def eventTypeNormal : String := "Normal"

def eventTypeWarning : String := "Warning"

def reasonError : String := "Error"

def reasonStatusFailure : String := "StatusFailure"

def reasonInfo : String := "Info"

/-! ## Data model -/

/-- Go `error` values.  `mk text` is an arbitrary error whose `Error()` text is
`text`; `Errorf context wrapped` is the value built by
`fmt.Errorf(context + "%w", wrapped)`. -/
inductive GoError where
  | mk (text : String)
  | Errorf (context : String) (wrapped : GoError)
  deriving DecidableEq, Repr

/-- The `Error()` method: the text of an error; a wrapping error prints its
context followed by the text of the error it wraps. -/
def GoError.Error : GoError → String
  | .mk text => text
  | .Errorf context wrapped => context ++ wrapped.Error

/-- Modelled from the spec: the `UpgradeStrategy` enum of the spec section
(`Automatic` | `None`); its declaration lives in `apis/v1beta1`. -/
inductive UpgradeStrategy where
  | Automatic
  | None
  deriving DecidableEq, Repr

/-- The constant `v1beta1.UpgradeStrategyAutomatic`. -/
def UpgradeStrategyAutomatic : UpgradeStrategy := UpgradeStrategy.Automatic

/-- The spec section: the upgrade strategy and the remaining desired state,
kept abstract as `S`. -/
structure OpenTelemetryCollectorSpec (S : Type) where
  UpgradeStrategy : UpgradeStrategy
  rest : S
  deriving DecidableEq, Repr

/-- The status section: the version and the remaining observed state, kept
abstract as `T`. -/
structure OpenTelemetryCollectorStatus (T : Type) where
  Version : String
  rest : T
  deriving DecidableEq, Repr

/-- The resource `v1beta1.OpenTelemetryCollector`: identity and metadata
(abstract, `M`), spec section and status section. -/
structure OpenTelemetryCollector (M S T : Type) where
  ObjectMeta : M
  Spec : OpenTelemetryCollectorSpec S
  Status : OpenTelemetryCollectorStatus T
  deriving DecidableEq, Repr

/-- The generated `DeepCopy`: a fresh object equal to the receiver.  With
objects modelled by value the copy is the value itself. -/
def OpenTelemetryCollector.DeepCopy {M S T : Type} (c : OpenTelemetryCollector M S T) :
    OpenTelemetryCollector M S T := c

/-- The comparison `reflect.DeepEqual` on two resources: structural equality. -/
def DeepEqual {M S T : Type} [DecidableEq M] [DecidableEq S] [DecidableEq T]
    (a b : OpenTelemetryCollector M S T) : Bool := decide (a = b)

/-- The type `ctrl.Result`; the function only ever returns the zero value
`ctrl.Result{}`. -/
structure Result where
  Requeue : Bool := false
  RequeueAfter : Nat := 0
  deriving DecidableEq, Repr

/-- One entry of the call log of an invocation: a call made by
`HandleReconcileStatus` itself, with the arguments handed over and, for the
fallible collaborators, the error that came back. -/
inductive Call (M S T : Type) where
  /-- The call `log.V(v).Info(msg, keysAndValues...)`. -/
  | LogInfo (v : Nat) (msg : String) (keysAndValues : List (String × String))
  /-- The call `params.Recorder.Event(object, eventtype, reason, message)`. -/
  | RecorderEvent (object : OpenTelemetryCollector M S T) (eventtype reason message : String)
  /-- The call `up.ManagedInstance(ctx, otelcol)`, the upgrade engine. -/
  | ManagedInstance (otelcol : OpenTelemetryCollector M S T) (err : Option GoError)
  /-- The call `params.Client.Patch(ctx, obj, client.MergeFrom(base))`, the spec patch. -/
  | ClientPatch (obj base : OpenTelemetryCollector M S T) (err : Option GoError)
  /-- The call `UpdateCollectorStatus(ctx, params.Client, changed)`, the status computer. -/
  | UpdateCollectorStatus (changed : OpenTelemetryCollector M S T) (err : Option GoError)
  /-- The call `params.Client.Status().Patch(ctx, obj, client.MergeFrom(base))`. -/
  | StatusPatch (obj base : OpenTelemetryCollector M S T) (err : Option GoError)
  deriving DecidableEq, Repr

/-- The collaborators of `HandleReconcileStatus`, as functions of the world
state `σ`.  Each returns what Go returns (for a callee that mutates its
argument: the argument after the call), and the next world state.  The base of
a merge patch is only read by the client, so it is not returned. -/
structure Collaborators (σ M S T : Type) where
  /-- The audit sink `params.Recorder.Event`. -/
  RecorderEvent : σ → OpenTelemetryCollector M S T → String → String → String → σ
  /-- The upgrade engine `(&collectorupgrade.VersionUpgrade{...}).ManagedInstance`:
  returns `(upgraded, upgradeErr)`. -/
  ManagedInstance : σ → OpenTelemetryCollector M S T →
    (OpenTelemetryCollector M S T × Option GoError) × σ
  /-- The spec patch `params.Client.Patch` applied to `obj` and
  `client.MergeFrom(base)`. -/
  ClientPatch : σ → OpenTelemetryCollector M S T → OpenTelemetryCollector M S T →
    (OpenTelemetryCollector M S T × Option GoError) × σ
  /-- The status computer `UpdateCollectorStatus`, which fills in the status of
  `changed`. -/
  UpdateCollectorStatus : σ → OpenTelemetryCollector M S T →
    (OpenTelemetryCollector M S T × Option GoError) × σ
  /-- The status patch `params.Client.Status().Patch` applied to `obj` and
  `client.MergeFrom(base)`. -/
  StatusPatch : σ → OpenTelemetryCollector M S T → OpenTelemetryCollector M S T →
    (OpenTelemetryCollector M S T × Option GoError) × σ

/-- What one invocation produces: the returned pair `(ctrl.Result, error)`, the
log of the calls it made, and the world state it leaves behind. -/
structure Outcome (σ M S T : Type) where
  result : Result
  err : Option GoError
  trace : List (Call M S T)
  world : σ

/-! ## The function -/

/-- Lines 67-77 of `HandleReconcileStatus`: compute the status of `changed`,
patch the status subresource against the base `otelcol`, record the outcome.
`tr` is the call log so far and `w` the world state so far. -/
def updateAndPatchStatus {σ M S T : Type} (env : Collaborators σ M S T) (w : σ)
    (otelcol changed : OpenTelemetryCollector M S T) (tr : List (Call M S T)) :
    Outcome σ M S T :=
  match env.UpdateCollectorStatus w changed with
  | ((changed1, some statusErr), w1) =>
    { result := {}
      err := some statusErr
      trace := tr ++ [Call.UpdateCollectorStatus changed (some statusErr),
        Call.RecorderEvent changed1 eventTypeWarning reasonStatusFailure statusErr.Error]
      world := env.RecorderEvent w1 changed1 eventTypeWarning reasonStatusFailure
        statusErr.Error }
  | ((changed1, none), w1) =>
    match env.StatusPatch w1 changed1 otelcol with
    | ((_, some err), w2) =>
      { result := {}
        err := some (GoError.Errorf "failed to apply status changes to the OpenTelemetry CR: " err)
        trace := tr ++ [Call.UpdateCollectorStatus changed none,
          Call.StatusPatch changed1 otelcol (some err)]
        world := w2 }
    | ((changed2, none), w2) =>
      { result := {}
        err := none
        trace := tr ++ [Call.UpdateCollectorStatus changed none,
          Call.StatusPatch changed1 otelcol none,
          Call.RecorderEvent changed2 eventTypeNormal reasonInfo "applied status changes"]
        world := env.RecorderEvent w2 changed2 eventTypeNormal reasonInfo
          "applied status changes" }

/-- The function `HandleReconcileStatus(ctx, log, params, otelcol, err)`, run
from world state `w`. -/
def HandleReconcileStatus {σ M S T : Type} [DecidableEq M] [DecidableEq S] [DecidableEq T]
    (env : Collaborators σ M S T) (w : σ)
    (otelcol : OpenTelemetryCollector M S T) (err : Option GoError) : Outcome σ M S T :=
  let tr0 : List (Call M S T) := [Call.LogInfo 2 "updating collector status" []]
  match err with
  | some e =>
    { result := {}
      err := some e
      trace := tr0 ++ [Call.RecorderEvent otelcol eventTypeWarning reasonError e.Error]
      world := env.RecorderEvent w otelcol eventTypeWarning reasonError e.Error }
  | none =>
    let changed := otelcol.DeepCopy
    if otelcol.Spec.UpgradeStrategy = UpgradeStrategyAutomatic then
      match env.ManagedInstance w changed with
      | ((_, some upgradeErr), w1) =>
        { result := {}
          err := some (GoError.Errorf "failed to upgrade the OpenTelemetry CR: " upgradeErr)
          trace := tr0 ++ [Call.ManagedInstance changed (some upgradeErr)]
          world := w1 }
      | ((upgraded, none), w1) =>
        let tr1 := tr0 ++ [Call.ManagedInstance changed none]
        let changed := upgraded
        if !DeepEqual otelcol changed then
          let st := changed.Status
          match env.ClientPatch w1 changed otelcol with
          | ((_, some patchErr), w2) =>
            { result := {}
              err := some (GoError.Errorf "failed to apply changes to the OpenTelemetry CR: "
                patchErr)
              trace := tr1 ++ [Call.ClientPatch changed otelcol (some patchErr)]
              world := w2 }
          | ((patched, none), w2) =>
            let changed1 := { patched with Status := st }
            updateAndPatchStatus env w2 otelcol changed1
              (tr1 ++ [Call.ClientPatch changed otelcol none,
                Call.LogInfo 0 "instance upgraded" [("version", changed1.Status.Version)]])
        else
          updateAndPatchStatus env w1 otelcol changed tr1
    else
      updateAndPatchStatus env w otelcol changed tr0

/-! ## Reading the call log -/

/-- An audit event as the recorder receives it. -/
structure Event (M S T : Type) where
  object : OpenTelemetryCollector M S T
  eventtype : String
  reason : String
  message : String
  deriving DecidableEq, Repr

/-- The audit events of a call log, in order. -/
def events {M S T : Type} (tr : List (Call M S T)) : List (Event M S T) :=
  tr.filterMap fun c =>
    match c with
    | Call.RecorderEvent object eventtype reason message =>
      some { object := object, eventtype := eventtype, reason := reason, message := message }
    | _ => none

/-- The arguments of the upgrade-engine calls of a call log, in order. -/
def engineCalls {M S T : Type} (tr : List (Call M S T)) : List (OpenTelemetryCollector M S T) :=
  tr.filterMap fun c =>
    match c with
    | Call.ManagedInstance otelcol _ => some otelcol
    | _ => none

/-- The `Client.Patch` calls of a call log, in order, as pairs (target, base). -/
def specPatchCalls {M S T : Type} (tr : List (Call M S T)) :
    List (OpenTelemetryCollector M S T × OpenTelemetryCollector M S T) :=
  tr.filterMap fun c =>
    match c with
    | Call.ClientPatch obj base _ => some (obj, base)
    | _ => none

/-- The snapshots handed to `UpdateCollectorStatus` in a call log, in order. -/
def statusComputerCalls {M S T : Type} (tr : List (Call M S T)) :
    List (OpenTelemetryCollector M S T) :=
  tr.filterMap fun c =>
    match c with
    | Call.UpdateCollectorStatus changed _ => some changed
    | _ => none

/-- The `Status().Patch` calls of a call log, in order, as pairs (target, base). -/
def statusPatchCalls {M S T : Type} (tr : List (Call M S T)) :
    List (OpenTelemetryCollector M S T × OpenTelemetryCollector M S T) :=
  tr.filterMap fun c =>
    match c with
    | Call.StatusPatch obj base _ => some (obj, base)
    | _ => none

/-- Whether a log entry is a call of the upgrade engine, the spec patch or the
status patch that came back with an error. -/
def Call.failedSilently {M S T : Type} : Call M S T → Bool
  | Call.ManagedInstance _ (some _) => true
  | Call.ClientPatch _ _ (some _) => true
  | Call.StatusPatch _ _ (some _) => true
  | _ => false

/-- Whether a log entry is a call of a fallible collaborator that came back
with an error. -/
def Call.failed {M S T : Type} : Call M S T → Bool
  | Call.ManagedInstance _ (some _) => true
  | Call.ClientPatch _ _ (some _) => true
  | Call.UpdateCollectorStatus _ (some _) => true
  | Call.StatusPatch _ _ (some _) => true
  | _ => false

/-! ## Concrete collaborators used to exercise the function -/

/-- A collector named "otelcol" in automatic upgrade mode at version 1.0.0. -/
def sampleCollector : OpenTelemetryCollector String Nat Unit :=
  { ObjectMeta := "otelcol"
    Spec := { UpgradeStrategy := UpgradeStrategy.Automatic, rest := 1 }
    Status := { Version := "1.0.0", rest := () } }

/-- The same collector with upgrades switched off. -/
def unmanagedCollector : OpenTelemetryCollector String Nat Unit :=
  { sampleCollector with Spec := { UpgradeStrategy := UpgradeStrategy.None, rest := 1 } }

/-- Collaborators over a world that counts the writes made to the cluster.  The
upgrade engine moves the spec to revision 2 and sets the status version to
2.0.0; the spec patch answers with the stored object, whose status is still the
base's; the status computer and the status patch succeed and leave the object
as it is. -/
def upgradingEnv : Collaborators Nat String Nat Unit where
  RecorderEvent := fun w _ _ _ _ => w
  ManagedInstance := fun w c =>
    (({ c with Spec := { c.Spec with rest := 2 }, Status := { c.Status with Version := "2.0.0" } },
      none), w)
  ClientPatch := fun w obj base => (({ obj with Status := base.Status }, none), w + 1)
  UpdateCollectorStatus := fun w c => ((c, none), w)
  StatusPatch := fun w obj _ => ((obj, none), w + 1)

/-- Collaborators whose upgrade engine finds nothing to upgrade. -/
def idleEnv : Collaborators Nat String Nat Unit :=
  { upgradingEnv with ManagedInstance := fun w c => ((c, none), w) }

/-- Collaborators whose upgrade engine fails. -/
def brokenEngineEnv : Collaborators Nat String Nat Unit :=
  { upgradingEnv with ManagedInstance := fun w c => ((c, some (GoError.mk "no upgrade path")), w) }

/-- Collaborators whose spec patch is rejected by the store. -/
def conflictEnv : Collaborators Nat String Nat Unit :=
  { upgradingEnv with ClientPatch := fun w obj _ => ((obj, some (GoError.mk "conflict")), w) }

/-- Collaborators whose status computer fails. -/
def badConfigEnv : Collaborators Nat String Nat Unit :=
  { upgradingEnv with UpdateCollectorStatus := fun w c => ((c, some (GoError.mk "bad config")), w) }

/-- Collaborators whose status patch is rejected by the store. -/
def statusConflictEnv : Collaborators Nat String Nat Unit :=
  { upgradingEnv with StatusPatch := fun w obj _ => ((obj, some (GoError.mk "conflict")), w) }

/-- Collaborators whose upgrade engine touches nothing but the status version. -/
def statusOnlyEnv : Collaborators Nat String Nat Unit :=
  { upgradingEnv with
    ManagedInstance := fun w c => (({ c with Status := { c.Status with Version := "2.0.0" } }, none), w) }

/-- The sample collector as the upgrade engine of `upgradingEnv` returns it. -/
def upgradedCollector : OpenTelemetryCollector String Nat Unit :=
  { ObjectMeta := "otelcol"
    Spec := { UpgradeStrategy := UpgradeStrategy.Automatic, rest := 2 }
    Status := { Version := "2.0.0", rest := () } }

/-- The upgraded collector as the store of `upgradingEnv` answers the spec
patch: new spec, old status. -/
def storedCollector : OpenTelemetryCollector String Nat Unit :=
  { ObjectMeta := "otelcol"
    Spec := { UpgradeStrategy := UpgradeStrategy.Automatic, rest := 2 }
    Status := { Version := "1.0.0", rest := () } }

/-- The event of the success path of the sample run. -/
def successEvent : Event String Nat Unit :=
  { object := upgradedCollector, eventtype := "Normal", reason := "Info",
    message := "applied status changes" }

/-! ## Shape of an invocation -/

/-- The three ways lines 67-77 can end: the status computer fails, the status
patch fails, or both succeed.  In each the returned error and the call log are
explicit. -/
theorem updateAndPatchStatus_shape {σ M S T : Type} (env : Collaborators σ M S T) (w : σ)
    (otelcol changed : OpenTelemetryCollector M S T) (tr : List (Call M S T)) :
    (∃ c1 se, (updateAndPatchStatus env w otelcol changed tr).err = some se ∧
      (updateAndPatchStatus env w otelcol changed tr).trace =
        tr ++ [Call.UpdateCollectorStatus changed (some se),
          Call.RecorderEvent c1 "Warning" "StatusFailure" se.Error]) ∨
    (∃ c1 pe, (updateAndPatchStatus env w otelcol changed tr).err =
        some (GoError.Errorf "failed to apply status changes to the OpenTelemetry CR: " pe) ∧
      (updateAndPatchStatus env w otelcol changed tr).trace =
        tr ++ [Call.UpdateCollectorStatus changed none, Call.StatusPatch c1 otelcol (some pe)]) ∨
    (∃ c1 c2, (updateAndPatchStatus env w otelcol changed tr).err = none ∧
      (updateAndPatchStatus env w otelcol changed tr).trace =
        tr ++ [Call.UpdateCollectorStatus changed none, Call.StatusPatch c1 otelcol none,
          Call.RecorderEvent c2 "Normal" "Info" "applied status changes"]) := by
  rcases hS : env.UpdateCollectorStatus w changed with ⟨⟨c1, _ | se⟩, w1⟩
  · rcases hP : env.StatusPatch w1 c1 otelcol with ⟨⟨c2, _ | pe⟩, w2⟩
    · refine Or.inr (Or.inr ⟨c1, c2, ?_, ?_⟩) <;>
        simp [updateAndPatchStatus, hS, hP, eventTypeNormal, reasonInfo]
    · refine Or.inr (Or.inl ⟨c1, pe, ?_, ?_⟩) <;> simp [updateAndPatchStatus, hS, hP]
  · refine Or.inl ⟨c1, se, ?_, ?_⟩ <;>
      simp [updateAndPatchStatus, hS, eventTypeWarning, reasonStatusFailure]

/-- The ways an invocation can go before line 67: it stops on the prior error,
on an upgrade-engine failure or on a spec-patch failure, or it reaches line 67
with one of three call logs (upgrade skipped, upgrade without change, upgrade
patched). -/
theorem HandleReconcileStatus_shape {σ M S T : Type}
    [DecidableEq M] [DecidableEq S] [DecidableEq T] (env : Collaborators σ M S T) (w : σ)
    (otelcol : OpenTelemetryCollector M S T) (err : Option GoError) :
    (∃ e, err = some e ∧ (HandleReconcileStatus env w otelcol err).err = some e ∧
      (HandleReconcileStatus env w otelcol err).trace =
        [Call.LogInfo 2 "updating collector status" [],
          Call.RecorderEvent otelcol "Warning" "Error" e.Error]) ∨
    (∃ ue, err = none ∧ (HandleReconcileStatus env w otelcol err).err =
        some (GoError.Errorf "failed to upgrade the OpenTelemetry CR: " ue) ∧
      (HandleReconcileStatus env w otelcol err).trace =
        [Call.LogInfo 2 "updating collector status" [],
          Call.ManagedInstance otelcol (some ue)]) ∨
    (∃ pe, err = none ∧ (HandleReconcileStatus env w otelcol err).err =
        some (GoError.Errorf "failed to apply changes to the OpenTelemetry CR: " pe) ∧
      (HandleReconcileStatus env w otelcol err).trace =
        [Call.LogInfo 2 "updating collector status" [],
          Call.ManagedInstance otelcol none,
          Call.ClientPatch (env.ManagedInstance w otelcol).1.1 otelcol (some pe)]) ∨
    (∃ w1 changed pre, err = none ∧
      HandleReconcileStatus env w otelcol err = updateAndPatchStatus env w1 otelcol changed pre ∧
      (pre = [Call.LogInfo 2 "updating collector status" []] ∨
       pre = [Call.LogInfo 2 "updating collector status" [],
          Call.ManagedInstance otelcol none] ∨
       pre = [Call.LogInfo 2 "updating collector status" [],
          Call.ManagedInstance otelcol none,
          Call.ClientPatch (env.ManagedInstance w otelcol).1.1 otelcol none,
          Call.LogInfo 0 "instance upgraded"
            [("version", (env.ManagedInstance w otelcol).1.1.Status.Version)]])) := by
  rcases err with _ | e
  · by_cases hA : otelcol.Spec.UpgradeStrategy = UpgradeStrategyAutomatic
    · rcases hE : env.ManagedInstance w otelcol with ⟨⟨up, _ | ue⟩, w1⟩
      · cases hD : DeepEqual otelcol up
        · rcases hP : env.ClientPatch w1 up otelcol with ⟨⟨patched, _ | pe⟩, w2⟩
          · refine Or.inr (Or.inr (Or.inr ⟨w2, { patched with Status := up.Status },
              [Call.LogInfo 2 "updating collector status" [], Call.ManagedInstance otelcol none,
                Call.ClientPatch up otelcol none,
                Call.LogInfo 0 "instance upgraded" [("version", up.Status.Version)]],
              rfl, ?_, Or.inr (Or.inr rfl)⟩))
            simp [HandleReconcileStatus, OpenTelemetryCollector.DeepCopy, hA, hE, hD, hP]
          · refine Or.inr (Or.inr (Or.inl ⟨pe, rfl, ?_, ?_⟩)) <;>
              simp [HandleReconcileStatus, OpenTelemetryCollector.DeepCopy, hA, hE, hD, hP]
        · refine Or.inr (Or.inr (Or.inr ⟨w1, up,
            [Call.LogInfo 2 "updating collector status" [], Call.ManagedInstance otelcol none],
            rfl, ?_, Or.inr (Or.inl rfl)⟩))
          simp [HandleReconcileStatus, OpenTelemetryCollector.DeepCopy, hA, hE, hD]
      · refine Or.inr (Or.inl ⟨ue, rfl, ?_, ?_⟩) <;>
          simp [HandleReconcileStatus, OpenTelemetryCollector.DeepCopy, hA, hE]
    · refine Or.inr (Or.inr (Or.inr ⟨w, otelcol,
        [Call.LogInfo 2 "updating collector status" []], rfl, ?_, Or.inl rfl⟩))
      simp [HandleReconcileStatus, OpenTelemetryCollector.DeepCopy, hA]
  · exact Or.inl ⟨e, rfl, rfl, rfl⟩

/-- The run of an invocation whose upgrade engine returned a changed snapshot
and whose spec patch succeeded: lines 67-77 on the patched object carrying the
engine's status. -/
theorem HandleReconcileStatus_of_patched {σ M S T : Type}
    [DecidableEq M] [DecidableEq S] [DecidableEq T] (env : Collaborators σ M S T) (w w1 w2 : σ)
    (otelcol upgraded patched : OpenTelemetryCollector M S T)
    (hA : otelcol.Spec.UpgradeStrategy = UpgradeStrategyAutomatic)
    (hE : env.ManagedInstance w otelcol = ((upgraded, none), w1))
    (hD : DeepEqual otelcol upgraded = false)
    (hP : env.ClientPatch w1 upgraded otelcol = ((patched, none), w2)) :
    HandleReconcileStatus env w otelcol none =
      updateAndPatchStatus env w2 otelcol { patched with Status := upgraded.Status }
        [Call.LogInfo 2 "updating collector status" [], Call.ManagedInstance otelcol none,
          Call.ClientPatch upgraded otelcol none,
          Call.LogInfo 0 "instance upgraded" [("version", upgraded.Status.Version)]] := by
  simp [HandleReconcileStatus, OpenTelemetryCollector.DeepCopy, hA, hE, hD, hP]

/-- The call log records what the collaborators returned: the error stored in
an entry of a fallible collaborator is the error that collaborator returns on
the logged arguments, for the upgrade engine at the entry world state and for
the others at some world state. -/
theorem call_log_faithful {σ M S T : Type}
    [DecidableEq M] [DecidableEq S] [DecidableEq T] (env : Collaborators σ M S T) (w : σ)
    (otelcol : OpenTelemetryCollector M S T) (err : Option GoError) :
    ∀ c ∈ (HandleReconcileStatus env w otelcol err).trace,
      match c with
      | Call.ManagedInstance arg r =>
        arg = otelcol.DeepCopy ∧ r = (env.ManagedInstance w arg).1.2
      | Call.ClientPatch obj base r => ∃ w1, r = (env.ClientPatch w1 obj base).1.2
      | Call.UpdateCollectorStatus changed r =>
        ∃ w1, r = (env.UpdateCollectorStatus w1 changed).1.2
      | Call.StatusPatch obj base r => ∃ w1, r = (env.StatusPatch w1 obj base).1.2
      | _ => True := by
  have hU : ∀ (w1 : σ) (changed : OpenTelemetryCollector M S T) (tr : List (Call M S T)),
      ∀ c ∈ (updateAndPatchStatus env w1 otelcol changed tr).trace, c ∈ tr ∨
        (∃ w2, c = Call.UpdateCollectorStatus changed (env.UpdateCollectorStatus w2 changed).1.2) ∨
        (∃ w2 obj, c = Call.StatusPatch obj otelcol (env.StatusPatch w2 obj otelcol).1.2) ∨
        (∃ obj a b d, c = Call.RecorderEvent obj a b d) := by
    intro w1 changed tr c hc
    rcases hS : env.UpdateCollectorStatus w1 changed with ⟨⟨c1, _ | se⟩, w2⟩
    · rcases hP : env.StatusPatch w2 c1 otelcol with ⟨⟨c2, _ | pe⟩, w3⟩
      · simp [updateAndPatchStatus, hS, hP] at hc
        rcases hc with hc | rfl | rfl | rfl
        · exact Or.inl hc
        · exact Or.inr (Or.inl ⟨w1, by rw [hS]⟩)
        · exact Or.inr (Or.inr (Or.inl ⟨w2, c1, by rw [hP]⟩))
        · exact Or.inr (Or.inr (Or.inr ⟨_, _, _, _, rfl⟩))
      · simp [updateAndPatchStatus, hS, hP] at hc
        rcases hc with hc | rfl | rfl
        · exact Or.inl hc
        · exact Or.inr (Or.inl ⟨w1, by rw [hS]⟩)
        · exact Or.inr (Or.inr (Or.inl ⟨w2, c1, by rw [hP]⟩))
    · simp [updateAndPatchStatus, hS] at hc
      rcases hc with hc | rfl | rfl
      · exact Or.inl hc
      · exact Or.inr (Or.inl ⟨w1, by rw [hS]⟩)
      · exact Or.inr (Or.inr (Or.inr ⟨_, _, _, _, rfl⟩))
  have hT : ∀ (w1 : σ) (changed : OpenTelemetryCollector M S T) (tr : List (Call M S T))
      (P : Call M S T → Prop), (∀ c ∈ tr, P c) →
      (∀ w2, P (Call.UpdateCollectorStatus changed (env.UpdateCollectorStatus w2 changed).1.2)) →
      (∀ w2 obj, P (Call.StatusPatch obj otelcol (env.StatusPatch w2 obj otelcol).1.2)) →
      (∀ obj a b d, P (Call.RecorderEvent obj a b d)) →
      ∀ c ∈ (updateAndPatchStatus env w1 otelcol changed tr).trace, P c := by
    intro w1 changed tr P h1 h2 h3 h4 c hc
    rcases hU w1 changed tr c hc with h | ⟨w2, rfl⟩ | ⟨w2, obj, rfl⟩ | ⟨obj, a, b, d, rfl⟩
    · exact h1 c h
    · exact h2 w2
    · exact h3 w2 obj
    · exact h4 obj a b d
  rcases err with _ | e
  · by_cases hA : otelcol.Spec.UpgradeStrategy = UpgradeStrategyAutomatic
    · rcases hE : env.ManagedInstance w otelcol with ⟨⟨up, _ | ue⟩, w1⟩
      · cases hD : DeepEqual otelcol up
        · rcases hP : env.ClientPatch w1 up otelcol with ⟨⟨patched, _ | pe⟩, w2⟩
          · rw [HandleReconcileStatus_of_patched env w w1 w2 otelcol up patched hA hE hD hP]
            apply hT
            · simp [OpenTelemetryCollector.DeepCopy, hE]
              exact ⟨w1, by rw [hP]⟩
            · intro w2; exact ⟨w2, rfl⟩
            · intro w2 obj; exact ⟨w2, rfl⟩
            · intros; trivial
          · simp [HandleReconcileStatus, OpenTelemetryCollector.DeepCopy, hA, hE, hD, hP]
            exact ⟨w1, by rw [hP]⟩
        · have hrun : HandleReconcileStatus env w otelcol none =
              updateAndPatchStatus env w1 otelcol up
                [Call.LogInfo 2 "updating collector status" [],
                  Call.ManagedInstance otelcol none] := by
            simp [HandleReconcileStatus, OpenTelemetryCollector.DeepCopy, hA, hE, hD]
          rw [hrun]
          apply hT
          · simp [OpenTelemetryCollector.DeepCopy, hE]
          · intro w2; exact ⟨w2, rfl⟩
          · intro w2 obj; exact ⟨w2, rfl⟩
          · intros; trivial
      · simp [HandleReconcileStatus, OpenTelemetryCollector.DeepCopy, hA, hE]
    · have hrun : HandleReconcileStatus env w otelcol none =
          updateAndPatchStatus env w otelcol otelcol
            [Call.LogInfo 2 "updating collector status" []] := by
        simp [HandleReconcileStatus, OpenTelemetryCollector.DeepCopy, hA]
      rw [hrun]
      apply hT
      · simp
      · intro w2; exact ⟨w2, rfl⟩
      · intro w2 obj; exact ⟨w2, rfl⟩
      · intros; trivial
  · simp [HandleReconcileStatus]

/-! ## Prior error -/

/-- C1: with a non-nil prior error `e` the function returns exactly `e`, records
exactly one audit event, (Warning, "Error", text of `e`) against the input
snapshot, and calls neither the upgrade engine, nor the status computer, nor
`Client.Patch`, nor `Status().Patch`. -/
theorem C1_prior_error_fast_fail {σ M S T : Type}
    [DecidableEq M] [DecidableEq S] [DecidableEq T] (env : Collaborators σ M S T) (w : σ)
    (otelcol : OpenTelemetryCollector M S T) (e : GoError) :
    (HandleReconcileStatus env w otelcol (some e)).err = some e ∧
    events (HandleReconcileStatus env w otelcol (some e)).trace =
      [{ object := otelcol, eventtype := "Warning", reason := "Error", message := e.Error }] ∧
    engineCalls (HandleReconcileStatus env w otelcol (some e)).trace = [] ∧
    statusComputerCalls (HandleReconcileStatus env w otelcol (some e)).trace = [] ∧
    specPatchCalls (HandleReconcileStatus env w otelcol (some e)).trace = [] ∧
    statusPatchCalls (HandleReconcileStatus env w otelcol (some e)).trace = [] := by
  simp [HandleReconcileStatus, events, engineCalls, statusComputerCalls, specPatchCalls,
    statusPatchCalls, eventTypeWarning, reasonError]

/-! ## Status handling around the spec patch -/

/-- C2, as written, fails: the engine moves the status version from 1.0.0 to
2.0.0, the spec patch succeeds, and the status computer is handed a snapshot
whose status is the engine's, not the original's. -/
theorem C2_counterexample :
    sampleCollector.Spec.UpgradeStrategy = UpgradeStrategyAutomatic ∧
    (upgradingEnv.ManagedInstance 0 sampleCollector.DeepCopy).1.2 = none ∧
    (upgradingEnv.ManagedInstance 0 sampleCollector.DeepCopy).1.1 ≠ sampleCollector ∧
    (upgradingEnv.ClientPatch 0 (upgradingEnv.ManagedInstance 0 sampleCollector.DeepCopy).1.1
      sampleCollector).1.2 = none ∧
    ¬ ∀ c ∈ statusComputerCalls (HandleReconcileStatus upgradingEnv 0 sampleCollector none).trace,
      c.Status = sampleCollector.Status := by
  decide

/-- C2, amended: after a successful spec patch of a changed snapshot, the status
section of the snapshot handed to `UpdateCollectorStatus` is the status section
of the upgrade engine's output, whatever the spec patch wrote into the object;
the rest of that snapshot is what the spec patch left. -/
theorem C2_status_computer_sees_engine_status {σ M S T : Type}
    [DecidableEq M] [DecidableEq S] [DecidableEq T] (env : Collaborators σ M S T) (w w1 w2 : σ)
    (otelcol upgraded patched : OpenTelemetryCollector M S T)
    (hA : otelcol.Spec.UpgradeStrategy = UpgradeStrategyAutomatic)
    (hE : env.ManagedInstance w otelcol.DeepCopy = ((upgraded, none), w1))
    (hD : upgraded ≠ otelcol)
    (hP : env.ClientPatch w1 upgraded otelcol = ((patched, none), w2)) :
    statusComputerCalls (HandleReconcileStatus env w otelcol none).trace =
      [{ patched with Status := upgraded.Status }] ∧
    ∀ c ∈ statusComputerCalls (HandleReconcileStatus env w otelcol none).trace,
      c.Status = upgraded.Status := by
  have hD2 : DeepEqual otelcol upgraded = false := by
    simp only [DeepEqual, decide_eq_false_iff_not]
    exact fun h => hD h.symm
  have hrun : HandleReconcileStatus env w otelcol none =
      updateAndPatchStatus env w2 otelcol { patched with Status := upgraded.Status }
        [Call.LogInfo 2 "updating collector status" [], Call.ManagedInstance otelcol none,
          Call.ClientPatch upgraded otelcol none,
          Call.LogInfo 0 "instance upgraded" [("version", upgraded.Status.Version)]] := by
    simp only [OpenTelemetryCollector.DeepCopy] at hE
    simp [HandleReconcileStatus, OpenTelemetryCollector.DeepCopy, hA, hE, hD2, hP]
  rw [hrun]
  rcases updateAndPatchStatus_shape env w2 otelcol { patched with Status := upgraded.Status }
      [Call.LogInfo 2 "updating collector status" [], Call.ManagedInstance otelcol none,
        Call.ClientPatch upgraded otelcol none,
        Call.LogInfo 0 "instance upgraded" [("version", upgraded.Status.Version)]] with
    ⟨c1, se, _, ht⟩ | ⟨c1, pe, _, ht⟩ | ⟨c1, c2, _, ht⟩ <;>
  simp [ht, statusComputerCalls]

/-- C2, amended, at a concrete input: the store answers the spec patch with the
old status, and the status computer still sees version 2.0.0. -/
theorem C2_status_computer_sees_engine_status_witness :
    sampleCollector.Spec.UpgradeStrategy = UpgradeStrategyAutomatic ∧
    upgradingEnv.ManagedInstance 0 sampleCollector.DeepCopy = ((upgradedCollector, none), 0) ∧
    upgradedCollector ≠ sampleCollector ∧
    upgradingEnv.ClientPatch 0 upgradedCollector sampleCollector = ((storedCollector, none), 1) ∧
    storedCollector.Status = sampleCollector.Status ∧
    statusComputerCalls (HandleReconcileStatus upgradingEnv 0 sampleCollector none).trace =
      [upgradedCollector] :=
  ⟨rfl, rfl, by decide, rfl, rfl,
    (C2_status_computer_sees_engine_status upgradingEnv 0 0 1 sampleCollector upgradedCollector
      storedCollector rfl rfl (by decide) rfl).1⟩

/-- C8, as written, fails: the engine changes nothing but the status version,
the snapshot therefore differs from the original, and the target handed to
`Client.Patch` carries the engine's status, not the original's. -/
theorem C8_counterexample :
    ¬ ∀ p ∈ specPatchCalls (HandleReconcileStatus statusOnlyEnv 0 sampleCollector none).trace,
      p.1.Status = sampleCollector.Status := by
  decide

/-- C8, amended: whenever `Client.Patch` is called, its target is the upgrade
engine's output as returned, so the status section of the target is the one the
engine returned, and its base is the original snapshot. -/
theorem C8_spec_patch_target_is_engine_output {σ M S T : Type}
    [DecidableEq M] [DecidableEq S] [DecidableEq T] (env : Collaborators σ M S T) (w : σ)
    (otelcol : OpenTelemetryCollector M S T) (err : Option GoError) :
    ∀ p ∈ specPatchCalls (HandleReconcileStatus env w otelcol err).trace,
      p.1 = (env.ManagedInstance w otelcol.DeepCopy).1.1 ∧
      p.1.Status = (env.ManagedInstance w otelcol.DeepCopy).1.1.Status ∧
      p.2 = otelcol := by
  intro p hp
  rcases HandleReconcileStatus_shape env w otelcol err with
    ⟨e, _, _, ht⟩ | ⟨ue, _, _, ht⟩ | ⟨pe, _, _, ht⟩ | ⟨w1, changed, pre, _, hEq, hpre⟩
  · simp [ht, specPatchCalls] at hp
  · simp [ht, specPatchCalls] at hp
  · simp [ht, specPatchCalls] at hp
    simp [hp, OpenTelemetryCollector.DeepCopy]
  · rw [hEq] at hp
    rcases updateAndPatchStatus_shape env w1 otelcol changed pre with
      ⟨c1, se, _, ht⟩ | ⟨c1, pe, _, ht⟩ | ⟨c1, c2, _, ht⟩ <;>
    rcases hpre with rfl | rfl | rfl <;>
    simp [ht, specPatchCalls] at hp <;>
    simp [hp, OpenTelemetryCollector.DeepCopy]

/-- C8, amended, at a concrete input: the one spec patch call has the upgraded
collector, status version 2.0.0 included, as its target. -/
theorem C8_spec_patch_target_is_engine_output_witness :
    (upgradedCollector, sampleCollector) ∈
      specPatchCalls (HandleReconcileStatus upgradingEnv 0 sampleCollector none).trace ∧
    upgradedCollector = (upgradingEnv.ManagedInstance 0 sampleCollector.DeepCopy).1.1 ∧
    upgradedCollector.Status =
      (upgradingEnv.ManagedInstance 0 sampleCollector.DeepCopy).1.1.Status ∧
    sampleCollector = sampleCollector :=
  ⟨by decide,
    C8_spec_patch_target_is_engine_output upgradingEnv 0 sampleCollector none
      (upgradedCollector, sampleCollector) (by decide)⟩

/-! ## The status patch -/

/-- C3: every `Status().Patch` call of an invocation has the snapshot passed in
at entry as its base, whether the upgrade was skipped, found nothing to change,
or patched the spec. -/
theorem C3_status_patch_base_is_original {σ M S T : Type}
    [DecidableEq M] [DecidableEq S] [DecidableEq T] (env : Collaborators σ M S T) (w : σ)
    (otelcol : OpenTelemetryCollector M S T) (err : Option GoError) :
    ∀ p ∈ statusPatchCalls (HandleReconcileStatus env w otelcol err).trace, p.2 = otelcol := by
  intro p hp
  rcases HandleReconcileStatus_shape env w otelcol err with
    ⟨e, _, _, ht⟩ | ⟨ue, _, _, ht⟩ | ⟨pe, _, _, ht⟩ | ⟨w1, changed, pre, _, hEq, hpre⟩
  · simp [ht, statusPatchCalls] at hp
  · simp [ht, statusPatchCalls] at hp
  · simp [ht, statusPatchCalls] at hp
  · rw [hEq] at hp
    rcases updateAndPatchStatus_shape env w1 otelcol changed pre with
      ⟨c1, se, _, ht⟩ | ⟨c1, pe, _, ht⟩ | ⟨c1, c2, _, ht⟩ <;>
    rcases hpre with rfl | rfl | rfl <;>
    simp [ht, statusPatchCalls] at hp <;>
    simp [hp]

/-- C3 at concrete inputs: upgrade patched (the target differs from the base),
upgrade without change, upgrade skipped. -/
theorem C3_status_patch_base_is_original_witness :
    ((upgradedCollector, sampleCollector) ∈
        statusPatchCalls (HandleReconcileStatus upgradingEnv 0 sampleCollector none).trace ∧
      (upgradedCollector, sampleCollector).2 = sampleCollector) ∧
    ((sampleCollector, sampleCollector) ∈
        statusPatchCalls (HandleReconcileStatus idleEnv 0 sampleCollector none).trace ∧
      (sampleCollector, sampleCollector).2 = sampleCollector) ∧
    ((unmanagedCollector, unmanagedCollector) ∈
        statusPatchCalls (HandleReconcileStatus upgradingEnv 0 unmanagedCollector none).trace ∧
      (unmanagedCollector, unmanagedCollector).2 = unmanagedCollector) :=
  ⟨⟨by decide, C3_status_patch_base_is_original upgradingEnv 0 sampleCollector none
      (upgradedCollector, sampleCollector) (by decide)⟩,
    ⟨by decide, C3_status_patch_base_is_original idleEnv 0 sampleCollector none
      (sampleCollector, sampleCollector) (by decide)⟩,
    ⟨by decide, C3_status_patch_base_is_original upgradingEnv 0 unmanagedCollector none
      (unmanagedCollector, unmanagedCollector) (by decide)⟩⟩

/-! ## Upgrade without change -/

/-- C4: with no prior error and strategy Automatic, when the upgrade engine
succeeds with a snapshot deep-equal to the input, `Client.Patch` is not called,
the status computer is called (once, on that snapshot), and when it succeeds
`Status().Patch` is called exactly once. -/
theorem C4_upgrade_noop_skips_spec_patch {σ M S T : Type}
    [DecidableEq M] [DecidableEq S] [DecidableEq T] (env : Collaborators σ M S T) (w w1 : σ)
    (otelcol upgraded : OpenTelemetryCollector M S T)
    (hA : otelcol.Spec.UpgradeStrategy = UpgradeStrategyAutomatic)
    (hE : env.ManagedInstance w otelcol.DeepCopy = ((upgraded, none), w1))
    (hD : DeepEqual otelcol upgraded = true) :
    specPatchCalls (HandleReconcileStatus env w otelcol none).trace = [] ∧
    statusComputerCalls (HandleReconcileStatus env w otelcol none).trace = [upgraded] ∧
    ((env.UpdateCollectorStatus w1 upgraded).1.2 = none →
      (statusPatchCalls (HandleReconcileStatus env w otelcol none).trace).length = 1 ∧
      statusPatchCalls (HandleReconcileStatus env w otelcol none).trace =
        [((env.UpdateCollectorStatus w1 upgraded).1.1, otelcol)]) := by
  have hrun : HandleReconcileStatus env w otelcol none =
      updateAndPatchStatus env w1 otelcol upgraded
        [Call.LogInfo 2 "updating collector status" [], Call.ManagedInstance otelcol none] := by
    simp only [OpenTelemetryCollector.DeepCopy] at hE
    simp [HandleReconcileStatus, OpenTelemetryCollector.DeepCopy, hA, hE, hD]
  rw [hrun]
  rcases hS : env.UpdateCollectorStatus w1 upgraded with ⟨⟨c1, _ | se⟩, w2⟩
  · rcases hP : env.StatusPatch w2 c1 otelcol with ⟨⟨c2, _ | pe⟩, w3⟩ <;>
    simp [updateAndPatchStatus, hS, hP, specPatchCalls, statusComputerCalls, statusPatchCalls]
  · simp [updateAndPatchStatus, hS, specPatchCalls, statusComputerCalls, statusPatchCalls]

/-- C4 at a concrete input: the engine returns the collector as it is. -/
theorem C4_upgrade_noop_skips_spec_patch_witness :
    sampleCollector.Spec.UpgradeStrategy = UpgradeStrategyAutomatic ∧
    idleEnv.ManagedInstance 0 sampleCollector.DeepCopy = ((sampleCollector, none), 0) ∧
    DeepEqual sampleCollector sampleCollector = true ∧
    (idleEnv.UpdateCollectorStatus 0 sampleCollector).1.2 = none ∧
    specPatchCalls (HandleReconcileStatus idleEnv 0 sampleCollector none).trace = [] ∧
    statusComputerCalls (HandleReconcileStatus idleEnv 0 sampleCollector none).trace =
      [sampleCollector] ∧
    (statusPatchCalls (HandleReconcileStatus idleEnv 0 sampleCollector none).trace).length = 1 :=
  ⟨rfl, rfl, by decide, rfl,
    (C4_upgrade_noop_skips_spec_patch idleEnv 0 0 sampleCollector sampleCollector
      rfl rfl (by decide)).1,
    (C4_upgrade_noop_skips_spec_patch idleEnv 0 0 sampleCollector sampleCollector
      rfl rfl (by decide)).2.1,
    ((C4_upgrade_noop_skips_spec_patch idleEnv 0 0 sampleCollector sampleCollector
      rfl rfl (by decide)).2.2 rfl).1⟩

/-! ## Failures -/

/-- C5: every failure short-circuits.  A prior error, or a call of the upgrade
engine, the spec patch, the status computer or the status patch that comes back
with an error, makes the function return a non-nil error, and no collaborator
of a later step appears in the call log: after a prior error none at all, after
an engine failure no spec patch, status computation or status patch, after a
spec-patch failure no status computation or status patch, after a
status-computation failure no status patch, after a status-patch failure no
success event. -/
theorem C5_failures_short_circuit {σ M S T : Type}
    [DecidableEq M] [DecidableEq S] [DecidableEq T] (env : Collaborators σ M S T) (w : σ)
    (otelcol : OpenTelemetryCollector M S T) (err : Option GoError) :
    (∀ e, err = some e →
      (HandleReconcileStatus env w otelcol err).err ≠ none ∧
      engineCalls (HandleReconcileStatus env w otelcol err).trace = [] ∧
      specPatchCalls (HandleReconcileStatus env w otelcol err).trace = [] ∧
      statusComputerCalls (HandleReconcileStatus env w otelcol err).trace = [] ∧
      statusPatchCalls (HandleReconcileStatus env w otelcol err).trace = []) ∧
    (∀ arg ue, Call.ManagedInstance arg (some ue) ∈ (HandleReconcileStatus env w otelcol err).trace →
      (HandleReconcileStatus env w otelcol err).err ≠ none ∧
      specPatchCalls (HandleReconcileStatus env w otelcol err).trace = [] ∧
      statusComputerCalls (HandleReconcileStatus env w otelcol err).trace = [] ∧
      statusPatchCalls (HandleReconcileStatus env w otelcol err).trace = []) ∧
    (∀ obj base pe,
      Call.ClientPatch obj base (some pe) ∈ (HandleReconcileStatus env w otelcol err).trace →
      (HandleReconcileStatus env w otelcol err).err ≠ none ∧
      statusComputerCalls (HandleReconcileStatus env w otelcol err).trace = [] ∧
      statusPatchCalls (HandleReconcileStatus env w otelcol err).trace = []) ∧
    (∀ changed se,
      Call.UpdateCollectorStatus changed (some se) ∈
        (HandleReconcileStatus env w otelcol err).trace →
      (HandleReconcileStatus env w otelcol err).err ≠ none ∧
      statusPatchCalls (HandleReconcileStatus env w otelcol err).trace = []) ∧
    (∀ obj base pe,
      Call.StatusPatch obj base (some pe) ∈ (HandleReconcileStatus env w otelcol err).trace →
      (HandleReconcileStatus env w otelcol err).err ≠ none ∧
      events (HandleReconcileStatus env w otelcol err).trace = []) := by
  rcases HandleReconcileStatus_shape env w otelcol err with
    ⟨e, rfl, he, ht⟩ | ⟨ue, rfl, he, ht⟩ | ⟨pe, rfl, he, ht⟩ | ⟨w1, changed, pre, rfl, hEq, hpre⟩
  · simp [ht, he, engineCalls, specPatchCalls, statusComputerCalls, statusPatchCalls, events]
  · simp [ht, he, engineCalls, specPatchCalls, statusComputerCalls, statusPatchCalls, events]
  · simp [ht, he, engineCalls, specPatchCalls, statusComputerCalls, statusPatchCalls, events]
  · rw [hEq]
    rcases updateAndPatchStatus_shape env w1 otelcol changed pre with
      ⟨c1, se, he, ht⟩ | ⟨c1, pe, he, ht⟩ | ⟨c1, c2, he, ht⟩ <;>
    rcases hpre with rfl | rfl | rfl <;>
    simp [ht, he, engineCalls, specPatchCalls, statusComputerCalls, statusPatchCalls, events]

/-- C5 at concrete inputs: a prior error, a failing engine, a rejected spec
patch, a failing status computer and a rejected status patch. -/
theorem C5_failures_short_circuit_witness :
    ((HandleReconcileStatus upgradingEnv 0 sampleCollector (some (GoError.mk "boom"))).err ≠ none ∧
      engineCalls
        (HandleReconcileStatus upgradingEnv 0 sampleCollector (some (GoError.mk "boom"))).trace
        = [] ∧
      specPatchCalls
        (HandleReconcileStatus upgradingEnv 0 sampleCollector (some (GoError.mk "boom"))).trace
        = [] ∧
      statusComputerCalls
        (HandleReconcileStatus upgradingEnv 0 sampleCollector (some (GoError.mk "boom"))).trace
        = [] ∧
      statusPatchCalls
        (HandleReconcileStatus upgradingEnv 0 sampleCollector (some (GoError.mk "boom"))).trace
        = []) ∧
    ((HandleReconcileStatus brokenEngineEnv 0 sampleCollector none).err ≠ none ∧
      specPatchCalls (HandleReconcileStatus brokenEngineEnv 0 sampleCollector none).trace = [] ∧
      statusComputerCalls (HandleReconcileStatus brokenEngineEnv 0 sampleCollector none).trace
        = [] ∧
      statusPatchCalls (HandleReconcileStatus brokenEngineEnv 0 sampleCollector none).trace
        = []) ∧
    ((HandleReconcileStatus conflictEnv 0 sampleCollector none).err ≠ none ∧
      statusComputerCalls (HandleReconcileStatus conflictEnv 0 sampleCollector none).trace = [] ∧
      statusPatchCalls (HandleReconcileStatus conflictEnv 0 sampleCollector none).trace = []) ∧
    ((HandleReconcileStatus badConfigEnv 0 sampleCollector none).err ≠ none ∧
      statusPatchCalls (HandleReconcileStatus badConfigEnv 0 sampleCollector none).trace = []) ∧
    ((HandleReconcileStatus statusConflictEnv 0 sampleCollector none).err ≠ none ∧
      events (HandleReconcileStatus statusConflictEnv 0 sampleCollector none).trace = []) :=
  ⟨(C5_failures_short_circuit upgradingEnv 0 sampleCollector (some (GoError.mk "boom"))).1
      (GoError.mk "boom") rfl,
    (C5_failures_short_circuit brokenEngineEnv 0 sampleCollector none).2.1
      sampleCollector (GoError.mk "no upgrade path") (by decide),
    (C5_failures_short_circuit conflictEnv 0 sampleCollector none).2.2.1
      upgradedCollector sampleCollector (GoError.mk "conflict") (by decide),
    (C5_failures_short_circuit badConfigEnv 0 sampleCollector none).2.2.2.1
      upgradedCollector (GoError.mk "bad config") (by decide),
    (C5_failures_short_circuit statusConflictEnv 0 sampleCollector none).2.2.2.2
      upgradedCollector sampleCollector (GoError.mk "conflict") (by decide)⟩

/-! ## Audit events -/

/-- C6: the audit events recorded by the function itself follow the branch
taken and never number two.  Prior error: one (Warning, Error, error text)
against the input.  Status-computation failure: one (Warning, StatusFailure,
error text).  No prior error and no failing call: one (Normal, Info, "applied
status changes") and a nil error.  Failure of the upgrade engine, of the spec
patch or of the status patch: no event and a non-nil error. -/
theorem C6_events_per_branch {σ M S T : Type}
    [DecidableEq M] [DecidableEq S] [DecidableEq T] (env : Collaborators σ M S T) (w : σ)
    (otelcol : OpenTelemetryCollector M S T) (err : Option GoError) :
    (events (HandleReconcileStatus env w otelcol err).trace).length ≤ 1 ∧
    (∀ e, err = some e →
      events (HandleReconcileStatus env w otelcol err).trace =
        [{ object := otelcol, eventtype := "Warning", reason := "Error", message := e.Error }]) ∧
    (∀ changed se,
      Call.UpdateCollectorStatus changed (some se) ∈
        (HandleReconcileStatus env w otelcol err).trace →
      ∃ obj, events (HandleReconcileStatus env w otelcol err).trace =
        [{ object := obj, eventtype := "Warning", reason := "StatusFailure",
           message := se.Error }]) ∧
    (err = none → (∀ c ∈ (HandleReconcileStatus env w otelcol err).trace, c.failed = false) →
      (HandleReconcileStatus env w otelcol err).err = none ∧
      ∃ obj, events (HandleReconcileStatus env w otelcol err).trace =
        [{ object := obj, eventtype := "Normal", reason := "Info",
           message := "applied status changes" }]) ∧
    (∀ arg ue, Call.ManagedInstance arg (some ue) ∈ (HandleReconcileStatus env w otelcol err).trace →
      events (HandleReconcileStatus env w otelcol err).trace = [] ∧
      (HandleReconcileStatus env w otelcol err).err ≠ none) ∧
    (∀ obj base pe,
      Call.ClientPatch obj base (some pe) ∈ (HandleReconcileStatus env w otelcol err).trace →
      events (HandleReconcileStatus env w otelcol err).trace = [] ∧
      (HandleReconcileStatus env w otelcol err).err ≠ none) ∧
    (∀ obj base pe,
      Call.StatusPatch obj base (some pe) ∈ (HandleReconcileStatus env w otelcol err).trace →
      events (HandleReconcileStatus env w otelcol err).trace = [] ∧
      (HandleReconcileStatus env w otelcol err).err ≠ none) := by
  rcases HandleReconcileStatus_shape env w otelcol err with
    ⟨e, rfl, he, ht⟩ | ⟨ue, rfl, he, ht⟩ | ⟨pe, rfl, he, ht⟩ | ⟨w1, changed, pre, rfl, hEq, hpre⟩
  · simp [ht, he, events, Call.failed]
  · simp [ht, he, events, Call.failed]
  · simp [ht, he, events, Call.failed]
  · rw [hEq]
    rcases updateAndPatchStatus_shape env w1 otelcol changed pre with
      ⟨c1, se, he, ht⟩ | ⟨c1, pe, he, ht⟩ | ⟨c1, c2, he, ht⟩ <;>
    rcases hpre with rfl | rfl | rfl <;>
    simp [ht, he, events, Call.failed]

/-- C6 at concrete inputs, one per branch: prior error "boom", status computer
failing with "bad config", full success, failing engine, rejected spec patch,
rejected status patch. -/
theorem C6_events_per_branch_witness :
    events (HandleReconcileStatus upgradingEnv 0 sampleCollector (some (GoError.mk "boom"))).trace =
      [{ object := sampleCollector, eventtype := "Warning", reason := "Error",
         message := "boom" }] ∧
    (∃ obj, events (HandleReconcileStatus badConfigEnv 0 sampleCollector none).trace =
      [{ object := obj, eventtype := "Warning", reason := "StatusFailure",
         message := "bad config" }]) ∧
    ((HandleReconcileStatus upgradingEnv 0 sampleCollector none).err = none ∧
      ∃ obj, events (HandleReconcileStatus upgradingEnv 0 sampleCollector none).trace =
        [{ object := obj, eventtype := "Normal", reason := "Info",
           message := "applied status changes" }]) ∧
    (events (HandleReconcileStatus brokenEngineEnv 0 sampleCollector none).trace = [] ∧
      (HandleReconcileStatus brokenEngineEnv 0 sampleCollector none).err ≠ none) ∧
    (events (HandleReconcileStatus conflictEnv 0 sampleCollector none).trace = [] ∧
      (HandleReconcileStatus conflictEnv 0 sampleCollector none).err ≠ none) ∧
    (events (HandleReconcileStatus statusConflictEnv 0 sampleCollector none).trace = [] ∧
      (HandleReconcileStatus statusConflictEnv 0 sampleCollector none).err ≠ none) :=
  ⟨(C6_events_per_branch upgradingEnv 0 sampleCollector (some (GoError.mk "boom"))).2.1
      (GoError.mk "boom") rfl,
    (C6_events_per_branch badConfigEnv 0 sampleCollector none).2.2.1
      upgradedCollector (GoError.mk "bad config") (by decide),
    (C6_events_per_branch upgradingEnv 0 sampleCollector none).2.2.2.1 rfl (by decide),
    (C6_events_per_branch brokenEngineEnv 0 sampleCollector none).2.2.2.2.1
      sampleCollector (GoError.mk "no upgrade path") (by decide),
    (C6_events_per_branch conflictEnv 0 sampleCollector none).2.2.2.2.2.1
      upgradedCollector sampleCollector (GoError.mk "conflict") (by decide),
    (C6_events_per_branch statusConflictEnv 0 sampleCollector none).2.2.2.2.2.2
      upgradedCollector sampleCollector (GoError.mk "conflict") (by decide)⟩

/-- C7, as written, fails: when the upgrade engine fails, the function returns
the wrapped error and records no audit event at all. -/
theorem C7_counterexample :
    ¬ (events (HandleReconcileStatus brokenEngineEnv 0 sampleCollector none).trace).length = 1 := by
  decide

/-- C7, amended: an invocation records at most one audit event, and that event
is an Error, a StatusFailure or an Info event; it records none exactly when the
call log holds a failed call of the upgrade engine, of the spec patch or of the
status patch, and exactly one otherwise. -/
theorem C7_at_most_one_event {σ M S T : Type}
    [DecidableEq M] [DecidableEq S] [DecidableEq T] (env : Collaborators σ M S T) (w : σ)
    (otelcol : OpenTelemetryCollector M S T) (err : Option GoError) :
    (events (HandleReconcileStatus env w otelcol err).trace).length ≤ 1 ∧
    (∀ ev ∈ events (HandleReconcileStatus env w otelcol err).trace,
      (ev.eventtype = "Warning" ∧ ev.reason = "Error") ∨
      (ev.eventtype = "Warning" ∧ ev.reason = "StatusFailure") ∨
      (ev.eventtype = "Normal" ∧ ev.reason = "Info")) ∧
    ((events (HandleReconcileStatus env w otelcol err).trace).length = 0 ↔
      ∃ c ∈ (HandleReconcileStatus env w otelcol err).trace, c.failedSilently = true) ∧
    ((events (HandleReconcileStatus env w otelcol err).trace).length = 1 ↔
      ∀ c ∈ (HandleReconcileStatus env w otelcol err).trace, c.failedSilently = false) := by
  rcases HandleReconcileStatus_shape env w otelcol err with
    ⟨e, rfl, he, ht⟩ | ⟨ue, rfl, he, ht⟩ | ⟨pe, rfl, he, ht⟩ | ⟨w1, changed, pre, rfl, hEq, hpre⟩
  · simp [ht, he, events, Call.failedSilently]
  · simp [ht, he, events, Call.failedSilently]
  · simp [ht, he, events, Call.failedSilently]
  · rw [hEq]
    rcases updateAndPatchStatus_shape env w1 otelcol changed pre with
      ⟨c1, se, he, ht⟩ | ⟨c1, pe, he, ht⟩ | ⟨c1, c2, he, ht⟩ <;>
    rcases hpre with rfl | rfl | rfl <;>
    simp [ht, he, events, Call.failedSilently]

/-- C7, amended, at concrete inputs: a failing engine gives no event, a run
without failure gives one event, the Info event of the success path. -/
theorem C7_at_most_one_event_witness :
    (events (HandleReconcileStatus brokenEngineEnv 0 sampleCollector none).trace).length = 0 ∧
    (events (HandleReconcileStatus upgradingEnv 0 sampleCollector none).trace).length = 1 ∧
    successEvent ∈ events (HandleReconcileStatus upgradingEnv 0 sampleCollector none).trace ∧
    ((successEvent.eventtype = "Warning" ∧ successEvent.reason = "Error") ∨
      (successEvent.eventtype = "Warning" ∧ successEvent.reason = "StatusFailure") ∨
      (successEvent.eventtype = "Normal" ∧ successEvent.reason = "Info")) :=
  ⟨(C7_at_most_one_event brokenEngineEnv 0 sampleCollector none).2.2.1.mpr
      ⟨Call.ManagedInstance sampleCollector (some (GoError.mk "no upgrade path")),
        by decide, rfl⟩,
    (C7_at_most_one_event upgradingEnv 0 sampleCollector none).2.2.2.mpr (by decide),
    by decide,
    (C7_at_most_one_event upgradingEnv 0 sampleCollector none).2.1 successEvent (by decide)⟩

/-! ## Upgrade with a change, and upgrade switched off -/

/-- C9: with no prior error and strategy Automatic, when the upgrade engine
succeeds with a snapshot not deep-equal to the original, `Client.Patch` is
called exactly once, with the engine's output as target and the original as
base, and nothing before that call in the log is a call of the status computer;
when the spec patch, the status computer and the status patch all succeed,
`Status().Patch` is called exactly once and the returned error is nil. -/
theorem C9_upgrade_patches_spec_once {σ M S T : Type}
    [DecidableEq M] [DecidableEq S] [DecidableEq T] (env : Collaborators σ M S T) (w w1 : σ)
    (otelcol upgraded : OpenTelemetryCollector M S T)
    (hA : otelcol.Spec.UpgradeStrategy = UpgradeStrategyAutomatic)
    (hE : env.ManagedInstance w otelcol.DeepCopy = ((upgraded, none), w1))
    (hD : DeepEqual otelcol upgraded = false) :
    specPatchCalls (HandleReconcileStatus env w otelcol none).trace = [(upgraded, otelcol)] ∧
    (∃ pre post, (HandleReconcileStatus env w otelcol none).trace =
        pre ++ Call.ClientPatch upgraded otelcol (env.ClientPatch w1 upgraded otelcol).1.2 :: post ∧
      statusComputerCalls pre = [] ∧ specPatchCalls pre = [] ∧ specPatchCalls post = []) ∧
    (∀ patched w2 computed w3 final w4,
      env.ClientPatch w1 upgraded otelcol = ((patched, none), w2) →
      env.UpdateCollectorStatus w2 { patched with Status := upgraded.Status } =
        ((computed, none), w3) →
      env.StatusPatch w3 computed otelcol = ((final, none), w4) →
      statusComputerCalls (HandleReconcileStatus env w otelcol none).trace =
        [{ patched with Status := upgraded.Status }] ∧
      statusPatchCalls (HandleReconcileStatus env w otelcol none).trace = [(computed, otelcol)] ∧
      (HandleReconcileStatus env w otelcol none).err = none) := by
  simp only [OpenTelemetryCollector.DeepCopy] at hE
  refine ⟨?_, ?_, ?_⟩
  · rcases hP : env.ClientPatch w1 upgraded otelcol with ⟨⟨patched, _ | pe⟩, w2⟩
    · rw [HandleReconcileStatus_of_patched env w w1 w2 otelcol upgraded patched hA hE hD hP]
      rcases updateAndPatchStatus_shape env w2 otelcol { patched with Status := upgraded.Status }
          [Call.LogInfo 2 "updating collector status" [], Call.ManagedInstance otelcol none,
            Call.ClientPatch upgraded otelcol none,
            Call.LogInfo 0 "instance upgraded" [("version", upgraded.Status.Version)]] with
        ⟨c1, se, _, ht⟩ | ⟨c1, pe, _, ht⟩ | ⟨c1, c2, _, ht⟩ <;>
      simp [ht, specPatchCalls]
    · simp [HandleReconcileStatus, OpenTelemetryCollector.DeepCopy, hA, hE, hD, hP,
        specPatchCalls]
  · refine ⟨[Call.LogInfo 2 "updating collector status" [], Call.ManagedInstance otelcol none],
      ((HandleReconcileStatus env w otelcol none).trace).drop 3, ?_, rfl, rfl, ?_⟩
    all_goals
      rcases hP : env.ClientPatch w1 upgraded otelcol with ⟨⟨patched, _ | pe⟩, w2⟩
      · rw [HandleReconcileStatus_of_patched env w w1 w2 otelcol upgraded patched hA hE hD hP]
        rcases updateAndPatchStatus_shape env w2 otelcol
            { patched with Status := upgraded.Status }
            [Call.LogInfo 2 "updating collector status" [], Call.ManagedInstance otelcol none,
              Call.ClientPatch upgraded otelcol none,
              Call.LogInfo 0 "instance upgraded" [("version", upgraded.Status.Version)]] with
          ⟨c1, se, _, ht⟩ | ⟨c1, pe, _, ht⟩ | ⟨c1, c2, _, ht⟩ <;>
        simp [ht, specPatchCalls]
      · simp [HandleReconcileStatus, OpenTelemetryCollector.DeepCopy, hA, hE, hD, hP,
          specPatchCalls]
  · intro patched w2 computed w3 final w4 hP hS hQ
    rw [HandleReconcileStatus_of_patched env w w1 w2 otelcol upgraded patched hA hE hD hP]
    simp [updateAndPatchStatus, hS, hQ, statusComputerCalls, statusPatchCalls]

/-- C9 at a concrete input: the engine moves the collector to revision 2 and
every later step succeeds. -/
theorem C9_upgrade_patches_spec_once_witness :
    sampleCollector.Spec.UpgradeStrategy = UpgradeStrategyAutomatic ∧
    upgradingEnv.ManagedInstance 0 sampleCollector.DeepCopy = ((upgradedCollector, none), 0) ∧
    DeepEqual sampleCollector upgradedCollector = false ∧
    specPatchCalls (HandleReconcileStatus upgradingEnv 0 sampleCollector none).trace =
      [(upgradedCollector, sampleCollector)] ∧
    statusComputerCalls (HandleReconcileStatus upgradingEnv 0 sampleCollector none).trace =
      [{ storedCollector with Status := upgradedCollector.Status }] ∧
    statusPatchCalls (HandleReconcileStatus upgradingEnv 0 sampleCollector none).trace =
      [(upgradedCollector, sampleCollector)] ∧
    (HandleReconcileStatus upgradingEnv 0 sampleCollector none).err = none :=
  ⟨rfl, rfl, by decide,
    (C9_upgrade_patches_spec_once upgradingEnv 0 0 sampleCollector upgradedCollector
      rfl rfl (by decide)).1,
    (C9_upgrade_patches_spec_once upgradingEnv 0 0 sampleCollector upgradedCollector
      rfl rfl (by decide)).2.2 storedCollector 1 upgradedCollector 1 upgradedCollector 2
      rfl rfl rfl⟩

/-- C10: with no prior error and a strategy other than Automatic, the upgrade
engine and `Client.Patch` are not called and the status computer is handed a
copy equal to the input; when the status computer and the status patch succeed
there is exactly one `Status().Patch` call, exactly one event, (Normal, Info),
and a nil error. -/
theorem C10_no_upgrade_unless_automatic {σ M S T : Type}
    [DecidableEq M] [DecidableEq S] [DecidableEq T] (env : Collaborators σ M S T) (w : σ)
    (otelcol : OpenTelemetryCollector M S T)
    (hA : otelcol.Spec.UpgradeStrategy ≠ UpgradeStrategyAutomatic) :
    engineCalls (HandleReconcileStatus env w otelcol none).trace = [] ∧
    specPatchCalls (HandleReconcileStatus env w otelcol none).trace = [] ∧
    statusComputerCalls (HandleReconcileStatus env w otelcol none).trace = [otelcol.DeepCopy] ∧
    otelcol.DeepCopy = otelcol ∧
    (∀ computed w1 final w2,
      env.UpdateCollectorStatus w otelcol.DeepCopy = ((computed, none), w1) →
      env.StatusPatch w1 computed otelcol = ((final, none), w2) →
      (statusPatchCalls (HandleReconcileStatus env w otelcol none).trace).length = 1 ∧
      events (HandleReconcileStatus env w otelcol none).trace =
        [{ object := final, eventtype := "Normal", reason := "Info",
           message := "applied status changes" }] ∧
      (HandleReconcileStatus env w otelcol none).err = none) := by
  have hrun : HandleReconcileStatus env w otelcol none =
      updateAndPatchStatus env w otelcol otelcol
        [Call.LogInfo 2 "updating collector status" []] := by
    simp [HandleReconcileStatus, OpenTelemetryCollector.DeepCopy, hA]
  rw [hrun]
  refine ⟨?_, ?_, ?_, rfl, ?_⟩
  · rcases updateAndPatchStatus_shape env w otelcol otelcol
        [Call.LogInfo 2 "updating collector status" []] with
      ⟨c1, se, _, ht⟩ | ⟨c1, pe, _, ht⟩ | ⟨c1, c2, _, ht⟩ <;>
    simp [ht, engineCalls]
  · rcases updateAndPatchStatus_shape env w otelcol otelcol
        [Call.LogInfo 2 "updating collector status" []] with
      ⟨c1, se, _, ht⟩ | ⟨c1, pe, _, ht⟩ | ⟨c1, c2, _, ht⟩ <;>
    simp [ht, specPatchCalls]
  · rcases updateAndPatchStatus_shape env w otelcol otelcol
        [Call.LogInfo 2 "updating collector status" []] with
      ⟨c1, se, _, ht⟩ | ⟨c1, pe, _, ht⟩ | ⟨c1, c2, _, ht⟩ <;>
    simp [ht, statusComputerCalls, OpenTelemetryCollector.DeepCopy]
  · intro computed w1 final w2 hS hQ
    simp only [OpenTelemetryCollector.DeepCopy] at hS
    simp [updateAndPatchStatus, hS, hQ, statusPatchCalls, events, eventTypeNormal, reasonInfo]

/-- C10 at a concrete input: the collector with upgrades switched off. -/
theorem C10_no_upgrade_unless_automatic_witness :
    unmanagedCollector.Spec.UpgradeStrategy ≠ UpgradeStrategyAutomatic ∧
    engineCalls (HandleReconcileStatus upgradingEnv 0 unmanagedCollector none).trace = [] ∧
    specPatchCalls (HandleReconcileStatus upgradingEnv 0 unmanagedCollector none).trace = [] ∧
    statusComputerCalls (HandleReconcileStatus upgradingEnv 0 unmanagedCollector none).trace =
      [unmanagedCollector.DeepCopy] ∧
    ((statusPatchCalls
        (HandleReconcileStatus upgradingEnv 0 unmanagedCollector none).trace).length = 1 ∧
      events (HandleReconcileStatus upgradingEnv 0 unmanagedCollector none).trace =
        [{ object := unmanagedCollector, eventtype := "Normal", reason := "Info",
           message := "applied status changes" }] ∧
      (HandleReconcileStatus upgradingEnv 0 unmanagedCollector none).err = none) :=
  ⟨by decide,
    (C10_no_upgrade_unless_automatic upgradingEnv 0 unmanagedCollector (by decide)).1,
    (C10_no_upgrade_unless_automatic upgradingEnv 0 unmanagedCollector (by decide)).2.1,
    (C10_no_upgrade_unless_automatic upgradingEnv 0 unmanagedCollector (by decide)).2.2.1,
    (C10_no_upgrade_unless_automatic upgradingEnv 0 unmanagedCollector (by decide)).2.2.2.2
      unmanagedCollector 0 unmanagedCollector 1 rfl rfl⟩

end Collector
